import Mathlib

/-!
Verification of the local-first chat/data-analysis repository
(`src/lib/local-backend.ts`, `src/lib/cloud-fallback.ts`,
`src/components/ProcessingStatus.tsx`, `src/components/DataUpload.tsx`).

The TypeScript sources are shallowly embedded below.  JavaScript strings
are modelled as Lean `String` (per-codepoint; the sources only exercise
ASCII and BMP text), JavaScript numbers as `ℚ`, and JavaScript `Date.now()`
as an explicit `Nat` parameter.  Fallible operations return `Except`.
-/

/-! ## Character and string helpers (JS built-ins used by the sources) -/

/-- JS `\s` whitespace class (restricted to the ASCII whitespace the app sees). -/
def isWS (c : Char) : Bool := c.isWhitespace

/-- `startsWithL hay need` is true when `need` is an initial segment of `hay`. -/
def startsWithL : List Char → List Char → Bool
  | _, [] => true
  | [], _ :: _ => false
  | a :: as, b :: bs => a == b && startsWithL as bs

/-- Substring test, mirroring JS `String.prototype.includes`. -/
def containsSub : List Char → List Char → Bool
  | [], need => startsWithL [] need
  | c :: t, need => startsWithL (c :: t) need || containsSub t need

/-- `containsS hay need`: JS `hay.includes(need)`. -/
def containsS (hay need : String) : Bool := containsSub hay.data need.data

/-- JS `String.prototype.toLowerCase` (per-character; adequate for the ASCII
queries and word lists in the sources). -/
def lowerStr (s : String) : String := String.mk (s.data.map Char.toLower)

/-- `endsWithS s suf`: JS `s.endsWith(suf)`, via reversal. -/
def endsWithS (s suf : String) : Bool := startsWithL s.data.reverse suf.data.reverse

/-- Worker for `splitWS`: walks the characters, `prevWS` records whether the
previous character belonged to a whitespace run (so the run is not split twice).
Matches JS `s.split(/\s+/)`: leading/trailing whitespace contributes empty
pieces and the empty string yields `[""]`. -/
def splitWSAux : List Char → List Char → Bool → List (List Char)
  | [], acc, _ => [acc.reverse]
  | c :: cs, acc, prevWS =>
    if isWS c then
      if prevWS then splitWSAux cs [] true
      else acc.reverse :: splitWSAux cs [] true
    else splitWSAux cs (c :: acc) false

/-- JS `s.split(/\s+/)` on the character list of `s`. -/
def splitWS (s : List Char) : List (List Char) := splitWSAux s [] false

/-- JS `s.split(/\s+/)` returning strings. -/
def splitWSStr (s : String) : List String := (splitWS s.data).map (fun cs => String.mk cs)

/-- Worker for `splitChar`: JS `s.split(sep)` for a one-character separator
(every separator occurrence splits; empty pieces are kept). -/
def splitCharAux (sep : Char) : List Char → List Char → List (List Char)
  | [], acc => [acc.reverse]
  | c :: cs, acc =>
    if c == sep then acc.reverse :: splitCharAux sep cs []
    else splitCharAux sep cs (c :: acc)

/-- JS `s.split(sep)` for a one-character separator. -/
def splitChar (sep : Char) (s : List Char) : List (List Char) := splitCharAux sep s []

/-- JS `String.prototype.trim` on a character list. -/
def trimL (s : List Char) : List Char :=
  ((s.dropWhile isWS).reverse.dropWhile isWS).reverse

/-- JS `String.prototype.trim`. -/
def trimS (s : String) : String := String.mk (trimL s.data)

/-! ## JavaScript values (settings payloads, parsed JSON cells, …) -/

/-- The JS values the storage layer traffics in.  Compound values (arrays,
objects) are not needed by any claim and are omitted; every constructor below
is a genuine JS value, which is all the counterexamples require. -/
inductive JSValue where
  | null
  | bool (b : Bool)
  | num (q : ℚ)
  | str (s : String)
deriving DecidableEq, Repr

/-- JS truthiness of a `JSValue` (`null`, `false`, `0` and `""` are falsy). -/
def truthy : JSValue → Bool
  | .null => false
  | .bool b => b
  | .num q => !(q == 0)
  | .str s => !(s == "")

/-- JS `JSON.stringify` restricted to `JSValue` (string escaping and float
formatting are abstracted; only the result's length is ever consumed, by
`saveDataset`'s `size` field, which no claim inspects). -/
def jsonStringify : JSValue → String
  | .null => "null"
  | .bool true => "true"
  | .bool false => "false"
  | .num q => toString q
  | .str s => "\"" ++ s ++ "\""

/-! ## Persistent Store (`src/lib/local-backend.ts`, class `LocalBackend`)

IndexedDB object stores are modelled as association lists keyed by their
`keyPath` field; `put` replaces the record with the matching key (or appends),
`add` errors on a key collision, `get` is `find?`. -/

structure DBDataset where
  id : String
  name : String
  data : JSValue
  created : Nat
  size : Nat
deriving DecidableEq, Repr

structure DBState where
  datasets : List DBDataset
  conversations : List (String × JSValue)
  settings : List (String × JSValue)
deriving DecidableEq, Repr

/-- `LocalBackend.db`: `none` models the uninitialized (`null`) handle. -/
structure Backend where
  db : Option DBState
deriving DecidableEq, Repr

/-- IndexedDB `put` on a store keyed by the first component: replace the
record with this key, or append a fresh record. -/
def putEntry : List (String × JSValue) → String → JSValue → List (String × JSValue)
  | [], k, v => [(k, v)]
  | p :: t, k, v => if p.1 == k then (k, v) :: t else p :: putEntry t k v

/-- `isOkE e` is true when `e` carries a value rather than an error. -/
def isOkE {α : Type} : Except String α → Bool
  | .ok _ => true
  | .error _ => false

/-- `LocalBackend.saveDataset` (lines 207–221): throws when the database is
not initialized, otherwise `add`s a record whose id is `Date.now()` rendered
as a string (`now` stands for `Date.now()`). -/
def saveDataset (b : Backend) (now : Nat) (name : String) (data : JSValue) :
    Except String (String × Backend) :=
  match b.db with
  | none => .error "Database not initialized"
  | some d =>
    let id := toString now
    let ds : DBDataset := ⟨id, name, data, now, (jsonStringify data).length⟩
    if d.datasets.any (fun x => x.id == id) then
      .error "Key already exists in the object store."
    else .ok (id, ⟨some { d with datasets := d.datasets ++ [ds] }⟩)

/-- `LocalBackend.getDatasets` (lines 223–226): empty list when uninitialized. -/
def getDatasets (b : Backend) : List DBDataset :=
  match b.db with
  | none => []
  | some d => d.datasets

/-- `LocalBackend.saveConversation` (lines 228–231): silently returns when the
database is not initialized, otherwise `put`s the record by its id. -/
def saveConversation (b : Backend) (conv : String × JSValue) : Except String Backend :=
  match b.db with
  | none => .ok b
  | some d => .ok ⟨some { d with conversations := putEntry d.conversations conv.1 conv.2 }⟩

/-- `LocalBackend.getConversations` (lines 233–236). -/
def getConversations (b : Backend) : List (String × JSValue) :=
  match b.db with
  | none => []
  | some d => d.conversations

/-- `LocalBackend.setSetting` (lines 238–241): silently returns when the
database is not initialized, otherwise `put`s `{ key, value }`. -/
def setSetting (b : Backend) (key : String) (value : JSValue) : Except String Backend :=
  match b.db with
  | none => .ok b
  | some d => .ok ⟨some { d with settings := putEntry d.settings key value }⟩

/-- `LocalBackend.getSetting` (lines 243–247): `null` when uninitialized;
otherwise `setting?.value || null`, which coalesces a *falsy* stored value
to `null`. -/
def getSetting (b : Backend) (key : String) : JSValue :=
  match b.db with
  | none => .null
  | some d =>
    match d.settings.find? (fun p => p.1 == key) with
    | none => .null
    | some p => if truthy p.2 then p.2 else .null

/-! ## Local Analyzer (`src/lib/local-backend.ts`, lines 162–193) -/

/-- The fixed positive-word list of `basicSentimentAnalysis`. -/
def positiveWords : List String :=
  ["good", "great", "excellent", "amazing", "wonderful", "fantastic", "love", "like"]

/-- The fixed negative-word list of `basicSentimentAnalysis`. -/
def negativeWords : List String :=
  ["bad", "terrible", "awful", "horrible", "hate", "dislike", "poor", "worst"]

/-- `text.toLowerCase().split(/\s+/)`, the token array of
`basicSentimentAnalysis` (line 166). -/
def sentimentWords (text : String) : List String := splitWSStr (lowerStr text)

structure SentimentResult where
  sentiment : String
  confidence : ℚ
  positive : Nat
  negative : Nat
deriving DecidableEq, Repr

/-- `LocalBackend.basicSentimentAnalysis` (lines 162–174). -/
def basicSentimentAnalysis (text : String) : SentimentResult :=
  let words := sentimentWords text
  let positive := (words.filter (fun word => positiveWords.contains word)).length
  let negative := (words.filter (fun word => negativeWords.contains word)).length
  let sentiment :=
    if positive > negative then "positive"
    else if negative > positive then "negative" else "neutral"
  let confidence := ((((positive : Int) - negative).natAbs : ℚ)) / (words.length : ℚ)
  ⟨sentiment, confidence, positive, negative⟩

/-- JS `\w` word-character class (ASCII letters, digits, underscore). -/
def isWordChar (c : Char) : Bool := c.isAlphanum || c == '_'

/-- `replace(/[^\w\s]/g, '')` (line 178): drop characters that are neither
word characters nor whitespace. -/
def stripPunct (s : List Char) : List Char := s.filter (fun c => isWordChar c || isWS c)

/-- The qualifying tokens of `extractKeywords` (lines 177–180): lowercase,
punctuation stripped, whitespace split, tokens of length > 3 kept. -/
def keywordTokens (text : String) : List String :=
  (((splitWS (stripPunct (lowerStr text).data)).map (fun cs => String.mk cs)).filter
    (fun word => word.length > 3))

/-- One step of the `frequency[word] = (frequency[word] || 0) + 1` loop
(lines 182–185), on an insertion-ordered association list.  (The `Object`
key-ordering quirk for integer-like keys only permutes `Object.entries`
and is abstracted; no claim depends on entry order among equal counts of
integer-like words.) -/
def bump (m : List (String × Nat)) (word : String) : List (String × Nat) :=
  if m.any (fun p => p.1 == word) then
    m.map (fun p => if p.1 == word then (p.1, p.2 + 1) else p)
  else m ++ [(word, 1)]

/-- First-seen key accumulator: the key list of `bump`'s result. -/
def seenFold (ks : List String) (word : String) : List String :=
  if ks.any (fun k => k == word) then ks else ks ++ [word]

/-- The distinct qualifying tokens of a text, in first-seen order. -/
def distinctTokens (text : String) : List String :=
  (keywordTokens text).foldl seenFold []

/-- Stable insertion before the first entry of not-larger count: one step of
the stable descending sort `sort(([,a],[,b]) => b - a)` (line 188). -/
def insertByCount (p : String × Nat) : List (String × Nat) → List (String × Nat)
  | [] => [p]
  | q :: qs => if q.2 ≤ p.2 then p :: q :: qs else q :: insertByCount p qs

/-- Stable descending-by-count sort, the unique stable sort matching the JS
comparator `([,a],[,b]) => b - a`. -/
def sortByCountDesc : List (String × Nat) → List (String × Nat)
  | [] => []
  | p :: ps => insertByCount p (sortByCountDesc ps)

structure KeywordsResult where
  keywords : List (String × Nat)
  totalWords : Nat
deriving DecidableEq, Repr

/-- `LocalBackend.extractKeywords` (lines 176–193).  The returned
`{ word, count }` records are kept as pairs. -/
def extractKeywords (text : String) : KeywordsResult :=
  let words := keywordTokens text
  let frequency := words.foldl bump []
  let keywords := (sortByCountDesc frequency).take 10
  ⟨keywords, words.length⟩

/-! ## Cloud Client (`src/lib/cloud-fallback.ts`, class `CloudFallback`) -/

/-- The `CloudFallback` instance state: `apiKey` (nullable) and `isEnabled`. -/
structure CloudState where
  apiKey : Option String
  isEnabled : Bool
deriving DecidableEq, Repr

/-- JS truthiness of the nullable `apiKey` string (`!!this.apiKey`). -/
def keyTruthy : Option String → Bool
  | none => false
  | some s => !(s == "")

structure CloudStatus where
  hasApiKey : Bool
  isEnabled : Bool
deriving DecidableEq, Repr

/-- `CloudFallback.getStatus` (lines 27–32). -/
def getStatus (st : CloudState) : CloudStatus := ⟨keyTruthy st.apiKey, st.isEnabled⟩

/-- The outcome of a completed `fetch` round-trip: HTTP status information and
the parsed `choices[i].message.content` strings.  (Transport-level rejection
and malformed-JSON bodies are outside this model; the embedding covers the
remote call returning an HTTP response, which is what §4.4 describes.) -/
structure FetchResponse where
  ok : Bool
  status : Nat
  statusText : String
  choices : List String
deriving DecidableEq, Repr

/-- `CloudFallback.processWithGPT` (lines 34–66), with the `fetch` outcome
passed in as `resp`.  `choices[0]?.message.content || ''` is `headD ""`
(a present-but-empty content string also yields `""`). -/
def processWithGPT (st : CloudState) (resp : FetchResponse) : Except String String :=
  if !st.isEnabled then .error "Cloud processing is disabled"
  else if !keyTruthy st.apiKey then .error "GPT API key not provided"
  else if !resp.ok then
    .error ("GPT API error: " ++ toString resp.status ++ " " ++ resp.statusText)
  else .ok (resp.choices.headD "")

/-! ## Query Router (`src/components/ProcessingStatus.tsx`, `ChatInterface`) -/

/-- The fixed enablement-hint text quoted by the spec. -/
def enablementHint : String :=
  "💡 For more advanced responses, you can enable cloud processing in settings."

/-- The text appended to the local response on the fallback paths
(lines 156 and 159). -/
def cloudHint : String :=
  "\n\n💡 For more advanced responses, you can enable cloud processing in settings."

structure LocalResult where
  response : String
  needsCloudFallback : Bool
deriving DecidableEq, Repr

/-- `toFixed(1)` on a non-negative JS number, modelled on ℚ with
round-half-up (binary-float rounding edge cases are abstracted; the rendered
string feeds only the sentiment response text, which no claim inspects). -/
def toFixed1 (q : ℚ) : String :=
  let n : Int := ⌊q * 10 + 1 / 2⌋
  toString (n / 10) ++ "." ++ toString (n % 10)

/-- The rule-2 response text (line 219). -/
def sentimentResponse (query : String) : String :=
  let s := basicSentimentAnalysis query
  "Based on local sentiment analysis: This text appears to be **" ++ s.sentiment ++
    "** (confidence: " ++ toFixed1 (s.confidence * 100) ++ "%). I detected " ++
    toString s.positive ++ " positive and " ++ toString s.negative ++
    " negative indicators."

/-- The rule-3 response text (line 227). -/
def keywordResponse (query : String) : String :=
  "Key words extracted locally: " ++
    String.intercalate ", " ((extractKeywords query).keywords.map Prod.fst)

/-- `processLocalQuery` (lines 197–266).  `datasetCount` stands for
`(await localBackend.getDatasets()).length`. -/
def processLocalQuery (query : String) (datasetCount : Nat) : LocalResult :=
  let lowerQuery := lowerStr query
  if containsS lowerQuery "data" || containsS lowerQuery "analyze" ||
      containsS lowerQuery "dataset" then
    if datasetCount == 0 then
      ⟨"I can help you analyze data! Please upload a dataset first using the data upload section.",
        false⟩
    else
      ⟨"I found " ++ toString datasetCount ++
        " dataset(s) in your local storage. I can perform basic analysis like summaries, statistics, and filtering. What would you like to know about your data?",
        false⟩
  else if containsS lowerQuery "sentiment" || containsS lowerQuery "feeling" ||
      containsS lowerQuery "emotion" then
    ⟨sentimentResponse query, false⟩
  else if containsS lowerQuery "keyword" || containsS lowerQuery "important words" then
    ⟨keywordResponse query, false⟩
  else if containsS lowerQuery "hello" || containsS lowerQuery "hi" ||
      containsS lowerQuery "hey" then
    ⟨"Hello! I'm running locally on your device. I can help you with data analysis, text processing, and simple conversations. What can I help you with today?",
      false⟩
  else if containsS lowerQuery "help" || containsS lowerQuery "what can you do" then
    ⟨"Here's what I can do locally:\n        \n📊 **Data Analysis**: Upload CSV/JSON files for analysis, statistics, and summaries\n📝 **Text Processing**: Sentiment analysis, keyword extraction, basic summarization  \n💬 **Simple Chat**: Basic conversations and help\n🔍 **Local Search**: Find and filter your stored data\n\nFor more advanced AI capabilities, you can enable cloud processing in the settings panel.",
      false⟩
  else if decide (query.length > 100) || containsS lowerQuery "explain" ||
      containsS lowerQuery "complex" || containsS lowerQuery "detailed" then
    ⟨"This seems like a complex question that could benefit from advanced AI processing.",
      true⟩
  else
    ⟨"I processed your message locally. For more sophisticated responses, you can enable cloud processing in settings. How else can I help you?",
      true⟩

/-- The disjunction of the routing-rule-1–5 trigger conditions of
`processLocalQuery` (§4.1 rules 1–5). -/
def matchesLocalRule (query : String) : Bool :=
  let lowerQuery := lowerStr query
  (containsS lowerQuery "data" || containsS lowerQuery "analyze" ||
      containsS lowerQuery "dataset") ||
  (containsS lowerQuery "sentiment" || containsS lowerQuery "feeling" ||
      containsS lowerQuery "emotion") ||
  (containsS lowerQuery "keyword" || containsS lowerQuery "important words") ||
  (containsS lowerQuery "hello" || containsS lowerQuery "hi" ||
      containsS lowerQuery "hey") ||
  (containsS lowerQuery "help" || containsS lowerQuery "what can you do")

/-- The rule-6 trigger condition of `processLocalQuery` (line 254). -/
def matchesComplexRule (query : String) : Bool :=
  let lowerQuery := lowerStr query
  decide (query.length > 100) || containsS lowerQuery "explain" ||
    containsS lowerQuery "complex" || containsS lowerQuery "detailed"

/-- The observable outcome of one `processMessage` run (lines 136–170):
the text shown to the user, the processing-type tag, and whether
`cloudFallback.chatWithGPT` was invoked (a network call attempted). -/
structure RouterResult where
  response : String
  processingType : String
  cloudAttempted : Bool
deriving DecidableEq, Repr

/-- The routing core of `processMessage` (lines 141–163): `cloudOutcome` is
the result of the `chatWithGPT` invocation when one happens (`.error` models
the thrown `cloudError`). -/
def processMessage (query : String) (datasetCount : Nat) (st : CloudState)
    (cloudOutcome : Except String String) : RouterResult :=
  let localResponse := processLocalQuery query datasetCount
  if localResponse.needsCloudFallback then
    if (getStatus st).isEnabled && (getStatus st).hasApiKey then
      match cloudOutcome with
      | .ok r => ⟨r, "cloud", true⟩
      | .error _ => ⟨localResponse.response ++ cloudHint, "local", true⟩
    else ⟨localResponse.response ++ cloudHint, "local", false⟩
  else ⟨localResponse.response, "local", false⟩

/-! ## In-memory message list (`ChatInterface`, lines 166–170) -/

structure Message where
  id : String
  role : String
  content : String
  timestamp : Nat
  processingType : String
  isLoading : Bool
deriving DecidableEq, Repr

/-- The completion update applied via `setMessages` (lines 166–170): replace
the entry whose id matches `targetId` with its completed form, leaving all
other entries untouched. -/
def completeUpdate (targetId content processingType : String)
    (msgs : List Message) : List Message :=
  msgs.map (fun msg =>
    if msg.id == targetId then
      { msg with content := content, processingType := processingType, isLoading := false }
    else msg)

/-! ## CSV import (`src/components/DataUpload.tsx`, lines 84–102) -/

/-- The digit-sequence value `d₀d₁…` as a natural number. -/
def digitsVal (ds : List Char) : Nat :=
  ds.foldl (fun n c => 10 * n + (c.toNat - '0'.toNat)) 0

/-- JS `parseFloat` restricted to optional sign, integer digits and a decimal
fraction (`none` is `NaN`).  Exponents and `Infinity` are not produced by the
repository's CSV path and are omitted. -/
def parseFloatQ (s : List Char) : Option ℚ :=
  let s1 := s.dropWhile isWS
  let signed : Int × List Char :=
    match s1 with
    | '-' :: t => (-1, t)
    | '+' :: t => (1, t)
    | t => (1, t)
  let intDigits := signed.2.takeWhile Char.isDigit
  let rest := signed.2.dropWhile Char.isDigit
  let fracDigits :=
    match rest with
    | '.' :: t => t.takeWhile Char.isDigit
    | _ => []
  if intDigits.isEmpty && fracDigits.isEmpty then none
  else
    some (mkRat
      (signed.1 * (digitsVal intDigits * 10 ^ fracDigits.length + digitsVal fracDigits))
      (10 ^ fracDigits.length))

/-- A parsed CSV cell: numeric when `parseFloat` succeeds, else the string. -/
inductive CellVal where
  | num (q : ℚ)
  | str (s : String)
deriving DecidableEq, Repr

/-- `parseCSV` (lines 84–102).  A row object is modelled as the association
list produced in header order; `values[index] || ''` is `getD index ""`. -/
def parseCSV (text : String) : List (List (String × CellVal)) :=
  let lines := (splitChar '\n' (trimS text).data).map (fun cs => String.mk cs)
  match lines with
  | [] => []
  | l0 :: rest =>
    let headers :=
      (splitChar ',' l0.data).map (fun h =>
        String.mk ((trimL h).filter (fun c => !(c == '"'))))
    rest.map (fun line =>
      let values :=
        (splitChar ',' line.data).map (fun v =>
          String.mk ((trimL v).filter (fun c => !(c == '"'))))
      headers.enum.map (fun iv =>
        let value := values.getD iv.1 ""
        match parseFloatQ value.data with
        | none => (iv.2, CellVal.str value)
        | some q => (iv.2, CellVal.num q)))

/-! ## Helper lemmas -/

theorem startsWithL_append (l t : List Char) : startsWithL (l ++ t) l = true := by
  induction l with
  | nil => simp [startsWithL]
  | cons a as ih => simp [startsWithL, ih]

theorem endsWithS_append (a b : String) : endsWithS (a ++ b) b = true := by
  show startsWithL (a ++ b).data.reverse b.data.reverse = true
  rw [String.data_append, List.reverse_append]
  exact startsWithL_append _ _

theorem splitWSAux_ne_nil (l : List Char) :
    ∀ (acc : List Char) (prevWS : Bool), splitWSAux l acc prevWS ≠ [] := by
  induction l with
  | nil => intro acc prevWS; simp [splitWSAux]
  | cons c cs ih =>
    intro acc prevWS
    simp only [splitWSAux]
    split
    · split
      · exact ih [] true
      · simp
    · exact ih (c :: acc) false

theorem splitWS_ne_nil (s : List Char) : splitWS s ≠ [] :=
  splitWSAux_ne_nil s [] false

theorem sentimentWords_ne_nil (text : String) : sentimentWords text ≠ [] := by
  unfold sentimentWords splitWSStr
  intro h
  exact splitWS_ne_nil _ (List.map_eq_nil_iff.mp h)

theorem find?_putEntry (es : List (String × JSValue)) (k : String) (v : JSValue) :
    (putEntry es k v).find? (fun p => p.1 == k) = some (k, v) := by
  induction es with
  | nil => simp [putEntry, List.find?]
  | cons p t ih =>
    by_cases h : p.1 == k
    · simp [putEntry, h, List.find?]
    · simp only [putEntry, h, if_false, Bool.false_eq_true]
      rw [List.find?_cons_of_neg _ (by simpa using h)]
      exact ih

theorem map_fst_any (m : List (String × Nat)) (w : String) :
    ((m.map Prod.fst).any fun k => k == w) = (m.any fun p => p.1 == w) := by
  induction m with
  | nil => rfl
  | cons p t ih => simp only [List.map_cons, List.any_cons, ih]

theorem bump_fst (m : List (String × Nat)) (w : String) :
    (bump m w).map Prod.fst = seenFold (m.map Prod.fst) w := by
  unfold bump seenFold
  rw [map_fst_any]
  by_cases h : m.any (fun p => p.1 == w)
  · simp only [h, if_true, List.map_map]
    congr 1
    funext p
    by_cases hp : p.1 = w <;> simp [hp]
  · simp [h]

theorem foldl_bump_fst (ws : List String) :
    ∀ m : List (String × Nat),
      (ws.foldl bump m).map Prod.fst = ws.foldl seenFold (m.map Prod.fst) := by
  induction ws with
  | nil => intro m; rfl
  | cons w t ih =>
    intro m
    simp only [List.foldl_cons]
    rw [ih (bump m w), bump_fst]

theorem bump_counts (m : List (String × Nat)) (w : String)
    (h : ∀ p ∈ m, 1 ≤ p.2) : ∀ p ∈ bump m w, 1 ≤ p.2 := by
  intro p hp
  unfold bump at hp
  split at hp
  · rcases List.mem_map.mp hp with ⟨q, hq, hqe⟩
    by_cases hq1 : q.1 == w
    · simp only [hq1, if_true] at hqe
      subst hqe
      exact Nat.le_succ_of_le (h q hq)
    · simp only [hq1] at hqe
      simp only [Bool.false_eq_true, if_false] at hqe
      subst hqe
      exact h q hq
  · rcases List.mem_append.mp hp with hq | hq
    · exact h p hq
    · simp only [List.mem_singleton] at hq
      subst hq
      exact le_refl 1

theorem foldl_bump_counts (ws : List String) :
    ∀ m : List (String × Nat), (∀ p ∈ m, 1 ≤ p.2) →
      ∀ p ∈ ws.foldl bump m, 1 ≤ p.2 := by
  induction ws with
  | nil => intro m hm; exact hm
  | cons w t ih =>
    intro m hm
    exact ih (bump m w) (bump_counts m w hm)

theorem length_insertByCount (p : String × Nat) (l : List (String × Nat)) :
    (insertByCount p l).length = l.length + 1 := by
  induction l with
  | nil => rfl
  | cons q qs ih =>
    unfold insertByCount
    split
    · simp
    · simp [ih]

theorem length_sortByCountDesc (l : List (String × Nat)) :
    (sortByCountDesc l).length = l.length := by
  induction l with
  | nil => rfl
  | cons p ps ih =>
    unfold sortByCountDesc
    rw [length_insertByCount, ih, List.length_cons]

theorem mem_insertByCount (a p : String × Nat) (l : List (String × Nat))
    (h : a ∈ insertByCount p l) : a = p ∨ a ∈ l := by
  induction l with
  | nil => simpa [insertByCount] using h
  | cons q qs ih =>
    unfold insertByCount at h
    split at h
    · rcases List.mem_cons.mp h with h | h
      · exact Or.inl h
      · exact Or.inr h
    · rcases List.mem_cons.mp h with h | h
      · exact Or.inr (by simp [h])
      · rcases ih h with h' | h'
        · exact Or.inl h'
        · exact Or.inr (List.mem_cons_of_mem q h')

theorem mem_sortByCountDesc (a : String × Nat) (l : List (String × Nat))
    (h : a ∈ sortByCountDesc l) : a ∈ l := by
  induction l with
  | nil => simpa [sortByCountDesc] using h
  | cons p ps ih =>
    unfold sortByCountDesc at h
    rcases mem_insertByCount a p (sortByCountDesc ps) h with h' | h'
    · simp [h']
    · exact List.mem_cons_of_mem p (ih h')

theorem startsWithL_append_of (need : List Char) :
    ∀ (l t : List Char), startsWithL l need = true → startsWithL (l ++ t) need = true := by
  induction need with
  | nil => intro l t _; simp [startsWithL]
  | cons b bs ih =>
    intro l t h
    cases l with
    | nil => simp [startsWithL] at h
    | cons a as =>
      simp only [startsWithL, Bool.and_eq_true] at h ⊢
      exact ⟨h.1, ih as t h.2⟩

theorem endsWithS_append_of (a b suf : String) (h : endsWithS b suf = true) :
    endsWithS (a ++ b) suf = true := by
  show startsWithL (a ++ b).data.reverse suf.data.reverse = true
  rw [String.data_append, List.reverse_append]
  exact startsWithL_append_of _ _ _ h

/-! ## Claim C1: setting round-trip -/

/-- C1 (counterexample): writing the JS value `false` and immediately reading
it back yields `null`, not `false` — `getSetting`'s `setting?.value || null`
coalesces every falsy stored value to `null`, so the round-trip claim fails
for non-truthy values. -/
theorem C1_counterexample :
    (setSetting ⟨some ⟨[], [], []⟩⟩ "cloudEnabled" (JSValue.bool false)).map
        (fun b => getSetting b "cloudEnabled") = Except.ok JSValue.null ∧
    JSValue.null ≠ JSValue.bool false :=
  ⟨rfl, by decide⟩

/-- C1 (amended): on an initialized store, a setting written via `setSetting`
and immediately read back via `getSetting` returns the written value when that
value is truthy, and `null` when the written value is falsy; a key with no
entry in the settings store reads as `null`. -/
theorem C1_roundtrip (d : DBState) (k : String) (v : JSValue) :
    (setSetting ⟨some d⟩ k v).map (fun b => getSetting b k) =
      Except.ok (if truthy v then v else JSValue.null) ∧
    (d.settings.find? (fun p => p.1 == k) = none →
      getSetting ⟨some d⟩ k = JSValue.null) := by
  constructor
  · simp [setSetting, Except.map, getSetting, find?_putEntry]
  · intro h
    simp [getSetting, h]

/-- C1 (witness): the round-trip theorem evaluated at a concrete truthy value
and at a concrete never-written key. -/
theorem C1_roundtrip_witness :
    (setSetting ⟨some ⟨[], [], []⟩⟩ "apiKey" (JSValue.str "sk-123")).map
        (fun b => getSetting b "apiKey") =
      Except.ok (if truthy (JSValue.str "sk-123") then JSValue.str "sk-123"
        else JSValue.null) ∧
    getSetting ⟨some ⟨[], [], []⟩⟩ "apiKey" = JSValue.null :=
  ⟨(C1_roundtrip ⟨[], [], []⟩ "apiKey" (JSValue.str "sk-123")).1,
   (C1_roundtrip ⟨[], [], []⟩ "apiKey" (JSValue.str "sk-123")).2 rfl⟩

/-! ## Claim C4: uninitialized storage behaviour -/

/-- C4 (counterexample): with the database uninitialized, `setSetting` does
not report an error — it silently returns (`if (!this.db) return;`), refuting
the claim that every write-path operation reports an explicit error. -/
theorem C4_counterexample :
    setSetting ⟨none⟩ "theme" (JSValue.str "dark") = Except.ok ⟨none⟩ ∧
    isOkE (setSetting ⟨none⟩ "theme" (JSValue.str "dark")) = true :=
  ⟨rfl, rfl⟩

/-- C4 (amended): when the database is not initialized, `saveDataset` reports
the explicit error "Database not initialized", while `saveConversation` and
`setSetting` return silently without writing; the read paths `getDatasets`,
`getConversations` and `getSetting` return an empty list or `null`. -/
theorem C4_uninitialized (b : Backend) (h : b.db = none) (now : Nat)
    (nm : String) (v : JSValue) (conv : String × JSValue) (k : String) :
    saveDataset b now nm v = Except.error "Database not initialized" ∧
    saveConversation b conv = Except.ok b ∧
    setSetting b k v = Except.ok b ∧
    getDatasets b = [] ∧
    getConversations b = [] ∧
    getSetting b k = JSValue.null := by
  obtain ⟨db⟩ := b
  cases h
  exact ⟨rfl, rfl, rfl, rfl, rfl, rfl⟩

/-- C4 (witness): the uninitialized-storage theorem at concrete arguments. -/
theorem C4_uninitialized_witness :
    saveDataset ⟨none⟩ 0 "d" JSValue.null = Except.error "Database not initialized" ∧
    saveConversation ⟨none⟩ ("c", JSValue.null) = Except.ok ⟨none⟩ ∧
    setSetting ⟨none⟩ "k" JSValue.null = Except.ok ⟨none⟩ ∧
    getDatasets ⟨none⟩ = [] ∧
    getConversations ⟨none⟩ = [] ∧
    getSetting ⟨none⟩ "k" = JSValue.null :=
  C4_uninitialized ⟨none⟩ rfl 0 "d" JSValue.null ("c", JSValue.null) "k"

/-! ## Claim C6: sentiment confidence bounds and tie behaviour -/

/-- C6: for every input text the sentiment confidence lies in [0, 1], and
whenever the positive-word count equals the negative-word count the label is
"neutral" and the count delta |positive − negative| is 0. -/
theorem C6_confidence_bounds (text : String) :
    0 ≤ (basicSentimentAnalysis text).confidence ∧
    (basicSentimentAnalysis text).confidence ≤ 1 ∧
    ((basicSentimentAnalysis text).positive = (basicSentimentAnalysis text).negative →
      (basicSentimentAnalysis text).sentiment = "neutral" ∧
      (((basicSentimentAnalysis text).positive : Int) -
        ((basicSentimentAnalysis text).negative : Int)).natAbs = 0) := by
  have hp : (basicSentimentAnalysis text).positive =
      ((sentimentWords text).filter (fun word => positiveWords.contains word)).length := rfl
  have hn : (basicSentimentAnalysis text).negative =
      ((sentimentWords text).filter (fun word => negativeWords.contains word)).length := rfl
  have hc : (basicSentimentAnalysis text).confidence =
      (((((basicSentimentAnalysis text).positive : Int) -
          (basicSentimentAnalysis text).negative).natAbs : ℚ)) /
        ((sentimentWords text).length : ℚ) := rfl
  have hs : (basicSentimentAnalysis text).sentiment =
      (if (basicSentimentAnalysis text).positive > (basicSentimentAnalysis text).negative
        then "positive"
        else if (basicSentimentAnalysis text).negative > (basicSentimentAnalysis text).positive
        then "negative" else "neutral") := rfl
  have hL : 0 < (sentimentWords text).length :=
    List.length_pos.mpr (sentimentWords_ne_nil text)
  have hPle : (basicSentimentAnalysis text).positive ≤ (sentimentWords text).length := by
    rw [hp]; exact List.length_filter_le _ _
  have hNle : (basicSentimentAnalysis text).negative ≤ (sentimentWords text).length := by
    rw [hn]; exact List.length_filter_le _ _
  refine ⟨?_, ?_, ?_⟩
  · rw [hc]
    exact div_nonneg (Nat.cast_nonneg _) (Nat.cast_nonneg _)
  · rw [hc]
    rw [div_le_one (by exact_mod_cast hL)]
    have : (((basicSentimentAnalysis text).positive : Int) -
        (basicSentimentAnalysis text).negative).natAbs ≤ (sentimentWords text).length := by
      omega
    exact_mod_cast this
  · intro h
    constructor
    · rw [hs, h]
      simp
    · omega

/-- C6 (witness): the bounds theorem at the concrete text "x", which has
zero positive and zero negative indicators (a tie). -/
theorem C6_confidence_bounds_witness :
    0 ≤ (basicSentimentAnalysis "x").confidence ∧
    (basicSentimentAnalysis "x").confidence ≤ 1 ∧
    (basicSentimentAnalysis "x").sentiment = "neutral" ∧
    (((basicSentimentAnalysis "x").positive : Int) -
      ((basicSentimentAnalysis "x").negative : Int)).natAbs = 0 := by
  obtain ⟨h0, h1, h2⟩ := C6_confidence_bounds "x"
  obtain ⟨hs, hd⟩ := h2 (by decide)
  exact ⟨h0, h1, hs, hd⟩

/-! ## Claim C10: the sentiment token array is never empty -/

/-- C10: for every input string (the empty and whitespace-only strings
included) the whitespace-split token array used by `basicSentimentAnalysis`
is non-empty — JS `split(/\s+/)` always returns at least one (possibly
empty-string) piece — so the `confidence` division never sees a zero
denominator and the function is total. -/
theorem C10_tokens_nonempty (text : String) :
    sentimentWords text ≠ [] ∧ 0 < (sentimentWords text).length ∧
    (basicSentimentAnalysis text).confidence =
      (((((basicSentimentAnalysis text).positive : Int) -
          (basicSentimentAnalysis text).negative).natAbs : ℚ)) /
        ((sentimentWords text).length : ℚ) := by
  have h := sentimentWords_ne_nil text
  exact ⟨h, List.length_pos.mpr h, rfl⟩

/-! ## Claim C9: message-list completion update -/

/-- C9: the completion update replaces entries by identifier, so applying the
same update twice equals applying it once, and updates that target distinct
identifiers commute. -/
theorem C9_update_by_id (l : List Message) (t1 t2 r1 r2 p1 p2 : String)
    (h : t1 ≠ t2) :
    completeUpdate t1 r1 p1 (completeUpdate t1 r1 p1 l) = completeUpdate t1 r1 p1 l ∧
    completeUpdate t1 r1 p1 (completeUpdate t2 r2 p2 l) =
      completeUpdate t2 r2 p2 (completeUpdate t1 r1 p1 l) := by
  constructor
  · unfold completeUpdate
    rw [List.map_map]
    apply List.map_congr_left
    intro m _
    simp only [Function.comp]
    by_cases h1 : m.id == t1 <;> simp [h1]
  · unfold completeUpdate
    rw [List.map_map, List.map_map]
    apply List.map_congr_left
    intro m _
    simp only [Function.comp]
    by_cases h1 : m.id == t1
    · by_cases h2 : m.id == t2
      · exact absurd ((beq_iff_eq.mp h1).symm.trans (beq_iff_eq.mp h2)) h
      · simp [h1, h2]
    · by_cases h2 : m.id == t2 <;> simp [h1, h2]

/-- C9 (witness): idempotence and commutation at a concrete one-message list
and the distinct identifiers "a" and "b". -/
theorem C9_update_by_id_witness :
    completeUpdate "a" "done" "cloud" (completeUpdate "a" "done" "cloud"
        [⟨"a", "assistant", "", 0, "local", true⟩]) =
      completeUpdate "a" "done" "cloud" [⟨"a", "assistant", "", 0, "local", true⟩] ∧
    completeUpdate "a" "done" "cloud" (completeUpdate "b" "oops" "local"
        [⟨"a", "assistant", "", 0, "local", true⟩]) =
      completeUpdate "b" "oops" "local" (completeUpdate "a" "done" "cloud"
        [⟨"a", "assistant", "", 0, "local", true⟩]) := by
  have h := C9_update_by_id [⟨"a", "assistant", "", 0, "local", true⟩]
    "a" "b" "done" "oops" "cloud" "local" (by decide)
  exact ⟨h.1, h.2⟩

/-! ## Claim C8: CSV parsing of the reference input -/

/-- C8: parsing `"a,b\n1,x\n2,y"` yields exactly the two records
{a: 1, b: "x"} and {a: 2, b: "y"} in order, with per-cell numeric coercion. -/
theorem C8_parseCSV_example :
    parseCSV "a,b\n1,x\n2,y" =
      [[("a", CellVal.num 1), ("b", CellVal.str "x")],
       [("a", CellVal.num 2), ("b", CellVal.str "y")]] := by decide

/-! ## Claim C2: rules 1–5 never reach the cloud -/

/-- C2: for every query matching one of routing rules 1–5, `processLocalQuery`
returns `needsCloudFallback = false` and `processMessage` returns the local
answer without invoking the Cloud Client, whatever the enabled/credential
flags and whatever a cloud call would have returned. -/
theorem C2_local_rules_no_network (q : String) (n : Nat) (st : CloudState)
    (out : Except String String) (h : matchesLocalRule q = true) :
    (processLocalQuery q n).needsCloudFallback = false ∧
    processMessage q n st out = ⟨(processLocalQuery q n).response, "local", false⟩ := by
  have hf : (processLocalQuery q n).needsCloudFallback = false := by
    simp only [matchesLocalRule] at h
    simp only [processLocalQuery]
    split_ifs <;> simp_all
  exact ⟨hf, by simp [processMessage, hf]⟩

/-- C2 (witness): rule 4 ("hello") at concrete cloud flags and cloud outcome. -/
theorem C2_local_rules_no_network_witness :
    matchesLocalRule "hello" = true ∧
    (processLocalQuery "hello" 0).needsCloudFallback = false ∧
    processMessage "hello" 0 ⟨some "sk", true⟩ (Except.ok "cloud text") =
      ⟨(processLocalQuery "hello" 0).response, "local", false⟩ := by
  have h := C2_local_rules_no_network "hello" 0 ⟨some "sk", true⟩
    (Except.ok "cloud text") (by decide)
  exact ⟨by decide, h.1, h.2⟩

/-! ## Claim C3: enablement hint on the disabled-cloud fallback paths -/

/-- C3 (counterexample): the query "explain data" contains "explain", yet —
because it also contains "data" — rule 1 takes priority, `needsCloudFallback`
is `false`, and with cloud disabled the returned text is the dataset answer,
which does not end with the enablement hint.  The claim as stated omits the
priority of rules 1–5. -/
theorem C3_counterexample :
    matchesComplexRule "explain data" = true ∧
    ((getStatus ⟨none, false⟩).isEnabled && (getStatus ⟨none, false⟩).hasApiKey) = false ∧
    endsWithS (processMessage "explain data" 0 ⟨none, false⟩ (Except.ok "")).response
      enablementHint = false := by decide

/-- C3 (amended): for every query with length > 100 or containing
"explain"/"complex"/"detailed" (case-folded) that matches none of rules 1–5,
when cloud processing is disabled or uncredentialed the returned text ends
with the fixed enablement hint. -/
theorem C3_hint_on_fallback (q : String) (n : Nat) (st : CloudState)
    (out : Except String String) (_hcomplex : matchesComplexRule q = true)
    (hnorule : matchesLocalRule q = false)
    (hcloud : ((getStatus st).isEnabled && (getStatus st).hasApiKey) = false) :
    endsWithS (processMessage q n st out).response enablementHint = true := by
  have hfb : (processLocalQuery q n).needsCloudFallback = true := by
    simp only [matchesLocalRule] at hnorule
    simp only [processLocalQuery]
    split_ifs <;> simp_all
  have hmsg : processMessage q n st out =
      ⟨(processLocalQuery q n).response ++ cloudHint, "local", false⟩ := by
    simp [processMessage, hfb, hcloud]
  rw [hmsg]
  exact endsWithS_append_of _ _ _ (by decide)

/-- C3 (witness): the amended theorem at the query "explain" with cloud
disabled and uncredentialed. -/
theorem C3_hint_on_fallback_witness :
    matchesComplexRule "explain" = true ∧
    matchesLocalRule "explain" = false ∧
    ((getStatus ⟨none, false⟩).isEnabled && (getStatus ⟨none, false⟩).hasApiKey) = false ∧
    endsWithS (processMessage "explain" 0 ⟨none, false⟩ (Except.ok "")).response
      enablementHint = true :=
  ⟨by decide, by decide, by decide,
   C3_hint_on_fallback "explain" 0 ⟨none, false⟩ (Except.ok "")
     (by decide) (by decide) (by decide)⟩

/-! ## Claim C7: cloud error conditions and router downgrade -/

/-- C7: `processWithGPT` succeeds exactly when processing is enabled, the
API credential is truthy, and the HTTP response is ok (so it fails with an
explicit error exactly when disabled, uncredentialed, or non-success status);
and whenever the router's cloud invocation fails, `processMessage` does not
propagate the error but returns the local fallback text with the enablement
hint appended. -/
theorem C7_cloud_error_contract :
    (∀ (st : CloudState) (resp : FetchResponse),
      isOkE (processWithGPT st resp) =
        (st.isEnabled && keyTruthy st.apiKey && resp.ok)) ∧
    (∀ (q : String) (n : Nat) (st : CloudState) (msg : String),
      (processLocalQuery q n).needsCloudFallback = true →
      ((getStatus st).isEnabled && (getStatus st).hasApiKey) = true →
      processMessage q n st (Except.error msg) =
        ⟨(processLocalQuery q n).response ++ cloudHint, "local", true⟩) := by
  constructor
  · intro st resp
    cases hE : st.isEnabled <;> cases hK : keyTruthy st.apiKey <;>
      cases hO : resp.ok <;> simp [processWithGPT, isOkE, hE, hK, hO]
  · intro q n st msg hfb hcl
    simp [processMessage, hfb, hcl]

/-- C7 (witness): a non-success HTTP status makes `processWithGPT` fail, and
a failing cloud invocation on the default fallback query "tell me more" is
downgraded to the hinted local text. -/
theorem C7_cloud_error_contract_witness :
    isOkE (processWithGPT ⟨some "sk", true⟩ ⟨false, 500, "Server Error", []⟩) =
      (true && keyTruthy (some "sk") && false) ∧
    (processLocalQuery "tell me more" 0).needsCloudFallback = true ∧
    ((getStatus ⟨some "sk", true⟩).isEnabled &&
      (getStatus ⟨some "sk", true⟩).hasApiKey) = true ∧
    processMessage "tell me more" 0 ⟨some "sk", true⟩ (Except.error "network down") =
      ⟨(processLocalQuery "tell me more" 0).response ++ cloudHint, "local", true⟩ :=
  ⟨C7_cloud_error_contract.1 ⟨some "sk", true⟩ ⟨false, 500, "Server Error", []⟩,
   by decide, by decide,
   C7_cloud_error_contract.2 "tell me more" 0 ⟨some "sk", true⟩ "network down"
     (by decide) (by decide)⟩

/-! ## Claim C5: keyword extraction entry count -/

/-- C5 (counterexample): the text "word word" has two qualifying tokens
(counted with multiplicity, as the claim's "number of qualifying tokens"
reads), yet `extractKeywords` returns a single entry, because repeated tokens
collapse into one frequency entry. -/
theorem C5_counterexample :
    (keywordTokens "word word").length < 10 ∧
    ¬((extractKeywords "word word").keywords.length =
        (keywordTokens "word word").length) := by decide

/-- C5 (amended): for every text whose number of *distinct* qualifying tokens
is n < 10, `extractKeywords` returns exactly n entries, each with count ≥ 1. -/
theorem C5_distinct_keywords (text : String)
    (h : (distinctTokens text).length < 10) :
    (extractKeywords text).keywords.length = (distinctTokens text).length ∧
    ∀ p ∈ (extractKeywords text).keywords, 1 ≤ p.2 := by
  have hklen : ((keywordTokens text).foldl bump []).length =
      (distinctTokens text).length := by
    have hmap := foldl_bump_fst (keywordTokens text) []
    have hlen : (((keywordTokens text).foldl bump []).map Prod.fst).length =
        (distinctTokens text).length := by
      rw [hmap]; rfl
    simpa using hlen
  constructor
  · show ((sortByCountDesc ((keywordTokens text).foldl bump [])).take 10).length = _
    rw [List.length_take, length_sortByCountDesc, hklen]
    omega
  · intro p hp
    have hp1 : p ∈ sortByCountDesc ((keywordTokens text).foldl bump []) :=
      List.take_subset _ _ hp
    have hp2 : p ∈ (keywordTokens text).foldl bump [] := mem_sortByCountDesc _ _ hp1
    exact foldl_bump_counts (keywordTokens text) [] (by simp) p hp2

/-- C5 (witness): the amended theorem at "alpha beta" (two distinct
qualifying tokens). -/
theorem C5_distinct_keywords_witness :
    (distinctTokens "alpha beta").length < 10 ∧
    (extractKeywords "alpha beta").keywords.length =
      (distinctTokens "alpha beta").length :=
  ⟨by decide, (C5_distinct_keywords "alpha beta" (by decide)).1⟩
